import Mathlib

/-!
Shallow embedding of the uwsgi rados plugin (plugins/rados/rados.c) and proofs
about its request dispatcher, its operation primitives and its asynchronous
completion bridge.

Modelling conventions:
- The RADOS pool is modelled as an association list from object keys to
  objects (data bytes plus mtime).  rados_stat / rados_remove /
  rados_write_full / rados_read are modelled by their documented semantics on
  that store (librados: rados_write_full atomically truncates the object and
  then writes the provided buffer, i.e. the object becomes exactly the
  buffer).
- The HTTP host runtime (uwsgi core) is outside src/: response writing and
  body reading are modelled as infallible; the request body reader is
  modelled by the list of chunks it hands to the plugin (each call to
  uwsgi_request_body_read returns one chunk of at most the requested size).
- The dispatcher model returns, besides the HTTP status and the headers the
  claims mention, the updated store, the trace of object-store operations the
  request issued, and the state of the per-slot pipe (created / closed).
- Transient cluster failures of the stat primitive (timeouts, permission
  errors: any negative return other than -ENOENT) are injected through the
  statFault field of the request model, since a pure store cannot produce
  them.
-/

namespace UwsgiRados



/-- Byte values (0..255) of object contents and request bodies. -/
abbrev Bytes := List Nat

/-- errno value ENOENT; rados_stat of a missing object returns -ENOENT. -/
def ENOENT : Int := 2

/-- errno value EEXIST; rados_pool_create of an existing pool returns -EEXIST. -/
def EEXIST : Int := 17

/-- PATH_MAX bound used by the dispatcher for path_info (rados.c line 439). -/
def PATH_MAX : Nat := 4096

/-- A stored RADOS object: its data and its modification time. -/
structure RadosObject where
  data : Bytes
  mtime : Int
  deriving Repr, DecidableEq

/-- The object store behind one rados_ioctx_t: an association list from
object keys to objects. -/
abbrev Store := List (String × RadosObject)

/-- Lookup of an object by key (the success case of rados_stat). -/
def statObj : Store → String → Option RadosObject
  | [], _ => none
  | (k, o) :: t, key => if k = key then some o else statObj t key

/-- Data bytes of the object stored under a key, when present. -/
def objData (s : Store) (key : String) : Option Bytes :=
  (statObj s key).map fun o => o.data

/-- rados_remove: drop the object stored under the key. -/
def removeObj (s : Store) (key : String) : Store :=
  s.filter fun kv => decide (kv.1 = key) = false

/-- Replace or insert the object stored under a key. -/
def setObj : Store → String → RadosObject → Store
  | [], key, o => [(key, o)]
  | (k, o') :: t, key, o =>
    if k = key then (key, o) :: t else (k, o') :: setObj t key o

/-- rados_write_full (librados): the object is atomically truncated and then
written, so afterwards the object data is exactly the given buffer.  Note the
call takes no offset. -/
def rados_write_full (s : Store) (key : String) (data : Bytes) (now : Int) : Store :=
  setObj s key ⟨data, now⟩

/-- One object-store operation issued by the plugin against the cluster
(synchronously, or as one AIO through the completion bridge: either way one
native call on the I/O context). -/
inductive StoreOp where
  | statOp (key : String)
  | removeOp (key : String)
  | writeFullOp (key : String) (data : Bytes)
  | readOp (key : String) (len off : Nat)
  | poolCreateOp (name : String)
  | listOp
  deriving Repr, DecidableEq

/-- The loop of uwsgi_rados_put (rados.c lines 149-170): while bytes of the
declared body length remain, read one chunk (the host returns a nonempty chunk
of at most the requested size, or fails) and issue one rados_write_full with
that chunk; then decrease the remaining count by the chunk length.  The local
variable off of the source is incremented in step but never used by any call,
so it is omitted here.  Returns the final store and the trace of issued
writes, or none when the body read fails (the source then returns -1). -/
def put_loop (key : String) (now : Int) :
    List Bytes → Nat → Store → Option (Store × List StoreOp)
  | [], remains, s => if remains = 0 then some (s, []) else none
  | c :: cs, remains, s =>
    if remains = 0 then some (s, [])
    else if c.length = 0 then none
    else
      match put_loop key now cs (remains - c.length) (rados_write_full s key c now) with
      | none => none
      | some (s', ops) => some (s', StoreOp.writeFullOp key c :: ops)

/-- uwsgi_rados_put (rados.c lines 146-176).  post_cl is the declared
Content-Length of the request body; chunks is the sequence of chunks the
host body reader yields.  Success (source return 0) gives the final store and
the write trace. -/
def uwsgi_rados_put (s : Store) (key : String) (now : Int)
    (post_cl : Nat) (chunks : List Bytes) : Option (Store × List StoreOp) :=
  put_loop key now chunks post_cl s

/-- The loop of uwsgi_rados_read (rados.c lines 187-214): read chunks of at
most 8192 bytes at increasing offsets and stream each to the response body;
stop with failure when a read returns no data (source: rlen <= 0).  Returns
the bytes streamed plus the trace of issued reads, or none on failure
(the source then returns -1, success only when remains reached 0). -/
def read_loop (data : Bytes) (key : String) (remains off : Nat) :
    Option (Bytes × List StoreOp) :=
  if h : remains = 0 then some ([], [])
  else
    have chunk := (data.drop off).take (min remains 8192)
    if h2 : chunk.length = 0 then none
    else
      match read_loop data key (remains - chunk.length) (off + chunk.length) with
      | none => none
      | some (rest, ops) =>
        some (chunk ++ rest, StoreOp.readOp key (min remains 8192) off :: ops)
termination_by remains
decreasing_by
  exact Nat.sub_lt (Nat.pos_of_ne_zero h) (Nat.pos_of_ne_zero h2)

/-- One configured rados mountpoint (struct uwsgi_rados_mountpoint): the URL
prefix and the four WebDAV permission flags.  In the source the flags are
char pointers set by the option parser; a flag is granted exactly when the
pointer is non-null, modelled as Bool.  The pool, config and timeout fields
play no role in the dispatched control flow modelled here. -/
structure Mountpoint where
  mountpoint : String
  allow_put : Bool
  allow_delete : Bool
  allow_mkcol : Bool
  allow_propfind : Bool
  deriving Repr, DecidableEq

/-- The per-request inputs the dispatcher consumes from the host runtime
(struct wsgi_request), plus the model-side fault injection:
- chunks: the chunk sequence the host body reader yields for this request;
- if_modified_since: parsed If-Modified-Since date, when the header is set;
- statFault: when some e (with e < 0), the stat of the key fails with native
  return e even though the store may hold the object (cluster timeout or
  permission error); when none, stat behaves as a pure store lookup;
- asyncEnabled: uwsgi.async > 0;
- pipeFails: the pipe(2) call at request entry fails;
- depth: parsed HTTP Depth header (0 when absent), used by root PROPFIND. -/
structure Request where
  method : String
  path_info : String
  post_cl : Nat
  chunks : List Bytes
  if_modified_since : Option Int
  statFault : Option Int
  asyncEnabled : Bool
  pipeFails : Bool
  depth : Nat
  deriving Repr, DecidableEq

/-- State of the per-slot pipe at the moment the request handler returns:
never created (async disabled, or failed / returned before creation), created
and closed, or created and still open (leaked). -/
inductive PipeState where
  | notCreated
  | openFds
  | closedFds
  deriving Repr, DecidableEq

/-- Everything observable about one run of the request handler: HTTP status,
the headers the claims mention, the response body bytes, the updated store
and pool list, the trace of object-store operations issued, and the pipe
state at return. -/
structure DispatchOut where
  status : Nat
  store : Store
  pools : List String
  trace : List StoreOp
  pipe : PipeState
  davHeader : Bool := false
  allowHeader : Option String := none
  contentLength : Option Nat := none
  lastModified : Option Int := none
  responseBody : Bytes := []
  deriving Repr, DecidableEq

/-- Plain output with only status, state, trace and pipe. -/
def outStatus (code : Nat) (s : Store) (pools : List String)
    (trace : List StoreOp) (pipe : PipeState) : DispatchOut :=
  { status := code, store := s, pools := pools, trace := trace, pipe := pipe }

/-- The close(fds) pair at the end label of uwsgi_rados_request (lines
648-652), executed when async is enabled. -/
def closePipe : PipeState → PipeState
  | .openFds => .closedFds
  | p => p

/-- filename computation of uwsgi_rados_request (lines 457-466): strip the
mountpoint from path_info when path_info is longer than the mountpoint and
starts with it; otherwise use path_info verbatim. -/
def computeFilename (mountpoint path_info : String) : String :=
  if mountpoint.length < path_info.length
      ∧ mountpoint.data.isPrefixOf path_info.data = true then
    String.mk (path_info.data.drop mountpoint.data.length)
  else path_info

/-- The Allow header value built by the OPTIONS branch (lines 497-526):
the base list plus one appended item per granted permission, in source
order PUT, DELETE, MKCOL, PROPFIND. -/
def allowString (urmp : Mountpoint) : String :=
  "OPTIONS, GET, HEAD"
    ++ (if urmp.allow_put then ", PUT" else "")
    ++ (if urmp.allow_delete then ", DELETE" else "")
    ++ (if urmp.allow_mkcol then ", MKCOL" else "")
    ++ (if urmp.allow_propfind then ", PROPFIND" else "")

/-- Native return value of the stat issued at lines 561-565: with no injected
fault it is 0 when the object exists and -ENOENT when it does not; an
injected fault is returned as is. -/
def statRetOf (req : Request) (s : Store) (filename : String) : Int :=
  match req.statFault with
  | some e => e
  | none => match statObj s filename with
    | some _ => 0
    | none => -ENOENT

/-- The object whose size and mtime the successful stat reported (none when
the stat failed; stat_size and stat_mtime then keep their 0 initialisers). -/
def statObjOf (req : Request) (s : Store) (filename : String) : Option RadosObject :=
  match req.statFault with
  | some _ => none
  | none => statObj s filename

/-- stat_mtime as the dispatcher sees it after the stat (0 when none). -/
def objMtime : Option RadosObject → Int
  | some o => o.mtime
  | none => 0

/-- stat_size as the dispatcher sees it after the stat (0 when none). -/
def objSize : Option RadosObject → Nat
  | some o => o.data.length
  | none => 0

/-- Trace of store operations issued by uwsgi_rados_propfind (lines 216-294)
for the root resource: Depth 0 emits the single root entry without touching
the store; a positive Depth opens the object list cursor and stats every
object.  (The XML building and body consumption involve no store call.) -/
def propfindRootTrace (s : Store) (depth : Nat) : List StoreOp :=
  if depth = 0 then [] else StoreOp.listOp :: s.map fun kv => StoreOp.statOp kv.1

/-- PUT branch of the dispatcher (lines 568-585), entered with allow_put
granted: when the stat succeeded, delete the pre-existing object first (the
pure-store delete of a present object succeeds); then run uwsgi_rados_put on
the body; 201 on success, 500 on failure. -/
def putBranch (req : Request) (filename : String) (s : Store)
    (pools : List String) (now : Int) (statRet : Int) (pipe0 : PipeState)
    (trace0 : List StoreOp) : DispatchOut :=
  match uwsgi_rados_put (if statRet = 0 then removeObj s filename else s)
      filename now req.post_cl req.chunks with
  | none =>
    outStatus 500 (if statRet = 0 then removeObj s filename else s) pools
      (if statRet = 0 then trace0 ++ [StoreOp.removeOp filename] else trace0)
      (closePipe pipe0)
  | some (s2, ops) =>
    outStatus 201 s2 pools
      ((if statRet = 0 then trace0 ++ [StoreOp.removeOp filename] else trace0) ++ ops)
      (closePipe pipe0)

/-- DELETE branch (lines 594-605), entered with allow_delete granted and the
stat succeeded: uwsgi_rados_delete issues the remove; in the pure store it
succeeds exactly when the object is present (200), otherwise 403. -/
def deleteBranch (filename : String) (s : Store) (pools : List String)
    (pipe0 : PipeState) (trace0 : List StoreOp) : DispatchOut :=
  if (statObj s filename).isSome = true then
    outStatus 200 (removeObj s filename) pools
      (trace0 ++ [StoreOp.removeOp filename]) (closePipe pipe0)
  else
    outStatus 403 s pools (trace0 ++ [StoreOp.removeOp filename]) (closePipe pipe0)

/-- Tail of the dispatcher after the If-Modified-Since check (lines 618-646):
PROPFIND gate and single-resource multistatus (207, no store call beyond the
already-issued stat), unknown methods 405, then the 200 path with
Last-Modified and Content-Length, streaming the object for GET (one read per
8 KiB chunk) and skipping the body for HEAD. -/
def handleTail (urmp : Mountpoint) (req : Request) (filename : String)
    (s : Store) (pools : List String) (obj : Option RadosObject)
    (pipe0 : PipeState) (trace0 : List StoreOp) : DispatchOut :=
  if req.method = "PROPFIND" then
    if urmp.allow_propfind = false then
      outStatus 405 s pools trace0 (closePipe pipe0)
    else
      outStatus 207 s pools trace0 (closePipe pipe0)
  else if req.method ≠ "HEAD" ∧ req.method ≠ "GET" then
    outStatus 405 s pools trace0 (closePipe pipe0)
  else if req.method = "HEAD" then
    { outStatus 200 s pools trace0 (closePipe pipe0) with
      contentLength := some (objSize obj), lastModified := some (objMtime obj) }
  else
    match read_loop ((statObj s filename).elim [] fun o => o.data) filename
        (objSize obj) 0 with
    | some (b, ops) =>
      { outStatus 200 s pools (trace0 ++ ops) (closePipe pipe0) with
        contentLength := some (objSize obj), lastModified := some (objMtime obj),
        responseBody := b }
    | none =>
      { outStatus 200 s pools trace0 (closePipe pipe0) with
        contentLength := some (objSize obj), lastModified := some (objMtime obj) }

/-- Dispatcher tail after the stat has been issued (lines 568-653): PUT gate
then PUT branch; stat-failure branch (404 for -ENOENT, 403 otherwise); DELETE
gate then DELETE branch; If-Modified-Since check answering 304 by returning
directly, skipping the end label that closes the pipe; then handleTail. -/
def handleAfterStat (urmp : Mountpoint) (req : Request) (filename : String)
    (s : Store) (pools : List String) (now : Int) (statRet : Int)
    (obj : Option RadosObject) (pipe0 : PipeState)
    (trace0 : List StoreOp) : DispatchOut :=
  if req.method = "PUT" then
    if urmp.allow_put = false then
      outStatus 405 s pools trace0 (closePipe pipe0)
    else
      putBranch req filename s pools now statRet pipe0 trace0
  else if statRet < 0 then
    outStatus (if statRet = -ENOENT then 404 else 403) s pools trace0 (closePipe pipe0)
  else if req.method = "DELETE" then
    if urmp.allow_delete = false then
      outStatus 405 s pools trace0 (closePipe pipe0)
    else
      deleteBranch filename s pools pipe0 trace0
  else
    match req.if_modified_since with
    | some ims =>
      if objMtime obj ≤ ims then
        outStatus 304 s pools trace0 pipe0
      else
        handleTail urmp req filename s pools obj pipe0 trace0
    | none => handleTail urmp req filename s pools obj pipe0 trace0

/-- uwsgi_rados_request (rados.c lines 427-654), from the path_info length
check on (request parsing and app resolution are host-side).  Order of the
branches follows the source: path check (403), pipe creation when async (500
on failure), OPTIONS (never stats), root path (PROPFIND or 405), MKCOL gate
then rados_pool_create, then the stat and handleAfterStat. -/
def uwsgi_rados_request (urmp : Mountpoint) (req : Request) (s : Store)
    (pools : List String) (now : Int) : DispatchOut :=
  if req.path_info.length = 0 ∨ req.path_info.length > PATH_MAX then
    outStatus 403 s pools [] .notCreated
  else if req.asyncEnabled = true ∧ req.pipeFails = true then
    outStatus 500 s pools [] .notCreated
  else if req.method = "OPTIONS" then
    { outStatus 200 s pools []
        (if req.asyncEnabled then .closedFds else .notCreated) with
      davHeader := true, allowHeader := some (allowString urmp) }
  else if req.path_info = "/" then
    if urmp.allow_propfind = true ∧ req.method = "PROPFIND" then
      outStatus 207 s pools (propfindRootTrace s req.depth)
        (if req.asyncEnabled then .closedFds else .notCreated)
    else
      outStatus 405 s pools []
        (if req.asyncEnabled then .closedFds else .notCreated)
  else if req.method = "MKCOL" then
    if urmp.allow_mkcol = false then
      outStatus 405 s pools []
        (if req.asyncEnabled then .closedFds else .notCreated)
    else if computeFilename urmp.mountpoint req.path_info ∈ pools then
      outStatus 405 s pools
        [StoreOp.poolCreateOp (computeFilename urmp.mountpoint req.path_info)]
        (if req.asyncEnabled then .closedFds else .notCreated)
    else
      outStatus 201 s (pools ++ [computeFilename urmp.mountpoint req.path_info])
        [StoreOp.poolCreateOp (computeFilename urmp.mountpoint req.path_info)]
        (if req.asyncEnabled then .closedFds else .notCreated)
  else
    handleAfterStat urmp req (computeFilename urmp.mountpoint req.path_info)
      s pools now
      (statRetOf req s (computeFilename urmp.mountpoint req.path_info))
      (statObjOf req s (computeFilename urmp.mountpoint req.path_info))
      (if req.asyncEnabled then .openFds else .notCreated)
      [StoreOp.statOp (computeFilename urmp.mountpoint req.path_info)]

/-- Modulus of the 64-bit rid counter (uint64_t rid in struct
uwsgi_rados_io). -/
def UINT64_MOD : Nat := 2 ^ 64

/-- Per-async-slot state of struct uwsgi_rados_io that the bridge touches:
the rid counter and the bytes so far written into the write end of the slot
pipe.  The slot array is calloc-ed at setup, so the initial rid is 0. -/
structure UrioState where
  rid : Nat
  pipeWrites : List Nat
  deriving Repr, DecidableEq

/-- Initial slot state after uwsgi_rados_setup (calloc zeroes the array). -/
def urioInit : UrioState := ⟨0, []⟩

/-- The per-transaction callback record struct uwsgi_rados_cb: the rid
snapshot taken at arming time (the back pointer to the slot is implicit in
the model, the slot being passed alongside). -/
structure Urcb where
  rid : Nat
  deriving Repr, DecidableEq

/-- uwsgi_rados_set_completion (lines 79-98): under the slot mutex increment
rid (64-bit, so modulo 2^64); allocate the callback record carrying the new
rid; then create the native completion.  When rados_aio_create_completion
fails the record is freed and NULL is returned (modelled by none); the rid
increment has already happened on that path too. -/
def uwsgi_rados_set_completion (urio : UrioState) (createOk : Bool) :
    UrioState × Option Urcb :=
  ({ urio with rid := (urio.rid + 1) % UINT64_MOD },
   if createOk then some ⟨(urio.rid + 1) % UINT64_MOD⟩ else none)

/-- Result of one delivery of uwsgi_rados_async_cb: the slot state after the
delivery, whether the late-wakeup message was logged, and whether the record
was freed. -/
structure CbResult where
  urio : UrioState
  loggedLate : Bool
  freed : Bool
  deriving Repr, DecidableEq

/-- uwsgi_rados_async_cb (lines 60-77): under the slot mutex, compare the
record rid with the slot rid; on mismatch only log the late wakeup, on match
write one byte into the pipe write end; either way free the record. -/
def uwsgi_rados_async_cb (urcb : Urcb) (urio : UrioState) : CbResult :=
  if urcb.rid ≠ urio.rid then
    ⟨urio, true, true⟩
  else
    ⟨{ urio with pipeWrites := urio.pipeWrites ++ [1] }, false, true⟩

/-- The operations that touch a slot during the process lifetime: an arming
(uwsgi_rados_set_completion, with the success of the native completion
creation), a callback delivery, and the await in uwsgi_rados_wait_completion
(which reads the pipe and never touches rid). -/
inductive SlotOp where
  | arm (createOk : Bool)
  | callback (urcb : Urcb)
  | wait
  deriving Repr, DecidableEq

/-- Effect of one slot operation on the slot state, through the functions
modelled above. -/
def slotStep (u : UrioState) : SlotOp → UrioState
  | .arm ok => (uwsgi_rados_set_completion u ok).1
  | .callback c => (uwsgi_rados_async_cb c u).urio
  | .wait => u

/-- Slot state after a sequence of operations. -/
def runSlot (u : UrioState) : List SlotOp → UrioState
  | [] => u
  | op :: ops => runSlot (slotStep u op) ops

/-- Number of armings in a sequence of slot operations. -/
def countArms : List SlotOp → Nat
  | [] => 0
  | .arm _ :: ops => countArms ops + 1
  | .callback _ :: ops => countArms ops
  | .wait :: ops => countArms ops

/-- The rid values the slot counter takes at each arming of a sequence, in
order. -/
def armRids (u : UrioState) : List SlotOp → List Nat
  | [] => []
  | .arm ok :: ops =>
    (slotStep u (.arm ok)).rid :: armRids (slotStep u (.arm ok)) ops
  | .callback c :: ops => armRids (slotStep u (.callback c)) ops
  | .wait :: ops => armRids (slotStep u .wait) ops

/-- How the arming phase of an async primitive ends: a clean failure return
(-1, no AIO issued, record already freed by set_completion), an issued AIO
carrying the record's rid, or a dereference of the NULL record pointer
(undefined behaviour). -/
inductive ArmOutcome where
  | noAioFail
  | aioIssued (rid : Nat)
  | nullDeref
  deriving Repr, DecidableEq

/-- Arming phase of uwsgi_rados_delete (lines 136-143): the NULL result of
set_completion is checked and turned into return -1 before any use. -/
def uwsgi_rados_delete_arm (u : UrioState) (createOk : Bool) :
    UrioState × ArmOutcome :=
  match uwsgi_rados_set_completion u createOk with
  | (u', none) => (u', .noAioFail)
  | (u', some c) => (u', .aioIssued c.rid)

/-- Arming phase of the async branch of uwsgi_rados_put (lines 160-166): the
result of set_completion is passed to rados_aio_write_full as
urcb->urio->comp with no NULL check, so a failed creation is dereferenced. -/
def uwsgi_rados_put_arm (u : UrioState) (createOk : Bool) :
    UrioState × ArmOutcome :=
  match uwsgi_rados_set_completion u createOk with
  | (u', none) => (u', .nullDeref)
  | (u', some c) => (u', .aioIssued c.rid)

/-- Arming phase of uwsgi_rados_async_stat (lines 179-185): as in put, the
record is dereferenced (urcb->urio->comp) with no NULL check. -/
def uwsgi_rados_async_stat_arm (u : UrioState) (createOk : Bool) :
    UrioState × ArmOutcome :=
  match uwsgi_rados_set_completion u createOk with
  | (u', none) => (u', .nullDeref)
  | (u', some c) => (u', .aioIssued c.rid)

/-- I/O context handles of one mount.  rados_ioctx_create returns a fresh
handle per call; handles are modelled by their creation index within the
mount. -/
abbrev IoCtx := Nat

/-- The responder0 binding of the app (lines 356-377, 391): an array of one
context per worker thread when uwsgi.threads > 1, a single context
otherwise. -/
inductive CtxBinding where
  | multi (ctxes : List IoCtx)
  | single (ctx : IoCtx)
  deriving Repr, DecidableEq

/-- Context allocation of uwsgi_rados_add_mountpoint (lines 358-377): with
T > 1 worker threads, a T-wide array with entry i the i-th freshly created
context; otherwise one single context. -/
def mountCtxBinding (threads : Nat) : CtxBinding :=
  if 1 < threads then .multi (List.range threads) else .single 0

/-- Context resolution in uwsgi_rados_request (lines 468-475): with
uwsgi.threads > 1 the binding is the array and the request indexes it with
wsgi_req->async_id; otherwise the binding is the single context.  The source
branches on uwsgi.threads > 1 and casts responder0 accordingly; the binding
variant encodes which cast applies. -/
def resolveCtx (b : CtxBinding) (async_id : Nat) : IoCtx :=
  match b with
  | .multi ctxes => ctxes.getD async_id 0
  | .single c => c

/-- Modelled from the spec: the identification of wsgi_req->async_id with the
worker-thread id is made by the uwsgi core (outside src/).  Spec section 5:
in multi-thread mode each worker thread holds its own I/O context per mount,
drawn from the per-mount io_contexts array indexed by worker id, and worker
thread t runs requests whose async slot id is t. -/
def requestAsyncIdOfThread (t : Nat) : Nat := t

/-- Mount at /r with every optional permission granted. -/
def mpAll : Mountpoint := ⟨"/r", true, true, true, true⟩

/-- Mount at /r with no optional permission granted. -/
def mpNone : Mountpoint := ⟨"/r", false, false, false, false⟩

/-- A five-byte object with mtime 100. -/
def objHello : RadosObject := ⟨[104, 101, 108, 108, 111], 100⟩

/-- A store holding that object under key /foo. -/
def storeHello : Store := [("/foo", objHello)]

/-- A full 32 KiB body chunk: 32768 bytes of value 7. -/
def bigChunk : Bytes := List.replicate 32768 7

/-- A PUT request for /r/x with a one-byte body and no fault injection. -/
def reqPutX : Request := ⟨"PUT", "/r/x", 1, [[7]], none, none, false, false, 0⟩

/-- A GET request for the absent key /r/miss with no fault injection. -/
def reqGetMiss : Request := ⟨"GET", "/r/miss", 0, [], none, none, false, false, 0⟩

/-- The Allow header value in the words of the spec: the base set OPTIONS,
GET, HEAD extended by exactly those of PUT, DELETE, MKCOL, PROPFIND that the
mount permits, in that order. -/
def allowHeaderSpec (urmp : Mountpoint) : String :=
  "OPTIONS, GET, HEAD" ++ String.join
    (([("PUT", urmp.allow_put), ("DELETE", urmp.allow_delete),
       ("MKCOL", urmp.allow_mkcol), ("PROPFIND", urmp.allow_propfind)].filter
      fun p => p.2 = true).map fun p => ", " ++ p.1)

/-- An OPTIONS request for /r/foo. -/
def reqOptions : Request := ⟨"OPTIONS", "/r/foo", 0, [], none, none, false, false, 0⟩

/-- Mount at /r permitting only PUT, as in spec scenario 7. -/
def mpOnlyPut : Mountpoint := ⟨"/r", true, false, false, false⟩

/-- A PUT request for /r/foo with Content-Length 0 and no fault injection. -/
def reqPutEmpty : Request := ⟨"PUT", "/r/foo", 0, [], none, none, false, false, 0⟩

/-- A GET request for /r/foo with no fault injection. -/
def reqGetFoo : Request := ⟨"GET", "/r/foo", 0, [], none, none, false, false, 0⟩

theorem put_loop_zero (key : String) (now : Int) (chunks : List Bytes) (s : Store) :
    put_loop key now chunks 0 s = some (s, []) := by
  cases chunks <;> simp [put_loop]

theorem cb_rid_eq (c : Urcb) (u : UrioState) :
    (uwsgi_rados_async_cb c u).urio.rid = u.rid := by
  unfold uwsgi_rados_async_cb
  split <;> rfl

theorem countArms_append (a b : List SlotOp) :
    countArms (a ++ b) = countArms a + countArms b := by
  induction a with
  | nil => simp [countArms]
  | cons op ops ih => cases op <;> simp [countArms, ih] <;> omega

theorem runSlot_rid (ops : List SlotOp) : ∀ u : UrioState,
    u.rid + countArms ops < UINT64_MOD →
    (runSlot u ops).rid = u.rid + countArms ops := by
  induction ops with
  | nil => intro u _; simp [runSlot, countArms]
  | cons op ops ih =>
    intro u h
    cases op with
    | arm ok =>
      have hc : countArms (SlotOp.arm ok :: ops) = countArms ops + 1 := rfl
      rw [hc] at h
      have h1 : (slotStep u (SlotOp.arm ok)).rid = u.rid + 1 :=
        Nat.mod_eq_of_lt (by omega)
      rw [show runSlot u (SlotOp.arm ok :: ops)
            = runSlot (slotStep u (SlotOp.arm ok)) ops from rfl,
          ih _ (by rw [h1]; omega), h1, hc]
      omega
    | callback c =>
      have h1 : (slotStep u (SlotOp.callback c)).rid = u.rid := cb_rid_eq c u
      have hc : countArms (SlotOp.callback c :: ops) = countArms ops := rfl
      rw [hc] at h
      rw [show runSlot u (SlotOp.callback c :: ops)
            = runSlot (slotStep u (SlotOp.callback c)) ops from rfl,
          ih _ (by rw [h1]; omega), h1, hc]
    | wait =>
      exact ih u h

theorem armRids_mono (ops : List SlotOp) : ∀ u : UrioState,
    u.rid + countArms ops < UINT64_MOD →
    List.Chain' (· < ·) (armRids u ops) ∧ ∀ x ∈ armRids u ops, u.rid < x := by
  induction ops with
  | nil =>
    intro u _
    exact ⟨List.chain'_nil, by intro x hx; cases hx⟩
  | cons op ops ih =>
    intro u h
    cases op with
    | arm ok =>
      have hc : countArms (SlotOp.arm ok :: ops) = countArms ops + 1 := rfl
      rw [hc] at h
      have h1 : (slotStep u (SlotOp.arm ok)).rid = u.rid + 1 :=
        Nat.mod_eq_of_lt (by omega)
      obtain ⟨hch, hgt⟩ := ih (slotStep u (SlotOp.arm ok)) (by rw [h1]; omega)
      have harm : armRids u (SlotOp.arm ok :: ops)
          = (slotStep u (SlotOp.arm ok)).rid
            :: armRids (slotStep u (SlotOp.arm ok)) ops := rfl
      constructor
      · rw [harm]
        refine List.chain'_cons'.mpr ⟨?_, hch⟩
        intro y hy
        have hmem := List.mem_of_mem_head? hy
        have := hgt y hmem
        omega
      · intro x hx
        rw [harm] at hx
        rcases List.mem_cons.mp hx with hx | hx
        · rw [hx, h1]; omega
        · have := hgt x hx
          rw [h1] at this
          omega
    | callback c =>
      have h1 : (slotStep u (SlotOp.callback c)).rid = u.rid := cb_rid_eq c u
      have hc : countArms (SlotOp.callback c :: ops) = countArms ops := rfl
      rw [hc] at h
      obtain ⟨hch, hgt⟩ := ih (slotStep u (SlotOp.callback c)) (by rw [h1]; omega)
      refine ⟨hch, ?_⟩
      intro x hx
      have := hgt x hx
      rw [h1] at this
      exact this
    | wait =>
      exact ih u h

/-- C6: a delivery of the AIO completion callback whose recorded rid is less
than the slot's current rid writes nothing to the slot pipe; it only logs the
late wakeup and frees the pending record. -/
theorem late_callback_writes_nothing (urcb : Urcb) (urio : UrioState)
    (h : urcb.rid < urio.rid) :
    (uwsgi_rados_async_cb urcb urio).urio.pipeWrites = urio.pipeWrites ∧
    (uwsgi_rados_async_cb urcb urio).loggedLate = true ∧
    (uwsgi_rados_async_cb urcb urio).freed = true := by
  unfold uwsgi_rados_async_cb
  rw [if_pos (Nat.ne_of_lt h)]
  exact ⟨rfl, rfl, rfl⟩

theorem late_callback_writes_nothing_witness :
    (1 : Nat) < 2 ∧
    ((uwsgi_rados_async_cb ⟨1⟩ ⟨2, [5]⟩).urio.pipeWrites = [5] ∧
     (uwsgi_rados_async_cb ⟨1⟩ ⟨2, [5]⟩).loggedLate = true ∧
     (uwsgi_rados_async_cb ⟨1⟩ ⟨2, [5]⟩).freed = true) :=
  ⟨by decide, late_callback_writes_nothing ⟨1⟩ ⟨2, [5]⟩ (by decide)⟩

/-- C7: over any sequence of slot operations from the initial slot state,
as long as the number of armings has not exhausted the 64-bit counter, the
rid values taken at armings are strictly increasing, no operation ever
decreases the counter, and each arming increments it by exactly one. -/
theorem rid_strictly_increasing (ops : List SlotOp)
    (h : countArms ops < UINT64_MOD) :
    List.Chain' (· < ·) (armRids urioInit ops) ∧
    (∀ l1 op l2, ops = l1 ++ op :: l2 →
      (runSlot urioInit l1).rid ≤ (slotStep (runSlot urioInit l1) op).rid) ∧
    (∀ l1 ok l2, ops = l1 ++ SlotOp.arm ok :: l2 →
      (slotStep (runSlot urioInit l1) (SlotOp.arm ok)).rid
        = (runSlot urioInit l1).rid + 1) := by
  have hinit : urioInit.rid = 0 := rfl
  refine ⟨(armRids_mono ops urioInit (by rw [hinit]; omega)).1, ?_, ?_⟩
  · intro l1 op l2 hsplit
    have hcount : countArms l1 + countArms (op :: l2) = countArms ops := by
      rw [hsplit, countArms_append]
    have hl1 : (runSlot urioInit l1).rid = countArms l1 := by
      have := runSlot_rid l1 urioInit (by
        rw [hinit]
        have : countArms (op :: l2) ≥ 0 := Nat.zero_le _
        omega)
      rw [hinit] at this
      omega
    cases op with
    | arm ok =>
      have hc1 : countArms (SlotOp.arm ok :: l2) = countArms l2 + 1 := rfl
      have hstep : (slotStep (runSlot urioInit l1) (SlotOp.arm ok)).rid
          = ((runSlot urioInit l1).rid + 1) % UINT64_MOD := rfl
      rw [hstep, hl1, Nat.mod_eq_of_lt (by omega)]
      omega
    | callback c =>
      rw [show (slotStep (runSlot urioInit l1) (SlotOp.callback c)).rid
            = (runSlot urioInit l1).rid from cb_rid_eq c _]
    | wait =>
      exact Nat.le_refl _
  · intro l1 ok l2 hsplit
    have hcount : countArms l1 + countArms (SlotOp.arm ok :: l2) = countArms ops := by
      rw [hsplit, countArms_append]
    have hc1 : countArms (SlotOp.arm ok :: l2) = countArms l2 + 1 := rfl
    have hl1 : (runSlot urioInit l1).rid = countArms l1 := by
      have := runSlot_rid l1 urioInit (by rw [hinit]; omega)
      rw [hinit] at this
      omega
    have hstep : (slotStep (runSlot urioInit l1) (SlotOp.arm ok)).rid
        = ((runSlot urioInit l1).rid + 1) % UINT64_MOD := rfl
    rw [hstep, hl1, Nat.mod_eq_of_lt (by omega)]

theorem rid_strictly_increasing_witness :
    countArms [SlotOp.arm true, SlotOp.callback ⟨1⟩, SlotOp.arm false,
      SlotOp.wait] < UINT64_MOD ∧
    (List.Chain' (· < ·) (armRids urioInit [SlotOp.arm true,
        SlotOp.callback ⟨1⟩, SlotOp.arm false, SlotOp.wait]) ∧
     (∀ l1 op l2, [SlotOp.arm true, SlotOp.callback ⟨1⟩, SlotOp.arm false,
          SlotOp.wait] = l1 ++ op :: l2 →
        (runSlot urioInit l1).rid ≤ (slotStep (runSlot urioInit l1) op).rid) ∧
     (∀ l1 ok l2, [SlotOp.arm true, SlotOp.callback ⟨1⟩, SlotOp.arm false,
          SlotOp.wait] = l1 ++ SlotOp.arm ok :: l2 →
        (slotStep (runSlot urioInit l1) (SlotOp.arm ok)).rid
          = (runSlot urioInit l1).rid + 1)) :=
  ⟨by decide, rid_strictly_increasing _ (by decide)⟩

/-- C4: evaluation of the arming phase of the three async primitives when
rados_aio_create_completion fails: delete checks the NULL result and returns
-1 without issuing an AIO, but put and stat pass the NULL record to the AIO
call (urcb->urio->comp) without any check, dereferencing the freed NULL
record instead of returning -1. -/
theorem arm_failure_null_deref :
    (uwsgi_rados_delete_arm ⟨5, []⟩ false).2 = ArmOutcome.noAioFail ∧
    (uwsgi_rados_put_arm ⟨5, []⟩ false).2 = ArmOutcome.nullDeref ∧
    (uwsgi_rados_async_stat_arm ⟨5, []⟩ false).2 = ArmOutcome.nullDeref := by
  decide

/-- C2: with T > 1 worker threads, the dispatcher resolves the I/O context by
indexing the per-mount T-wide context array with the worker-thread id of the
thread handling the request (the t-th thread gets the t-th created context),
so two distinct worker threads never share an I/O context. -/
theorem ctx_indexed_by_thread (T t1 t2 : Nat) (hT : 1 < T)
    (h1 : t1 < T) (h2 : t2 < T) (hne : t1 ≠ t2) :
    resolveCtx (mountCtxBinding T) (requestAsyncIdOfThread t1) = t1 ∧
    resolveCtx (mountCtxBinding T) (requestAsyncIdOfThread t1) ≠
      resolveCtx (mountCtxBinding T) (requestAsyncIdOfThread t2) := by
  have hb : mountCtxBinding T = .multi (List.range T) := if_pos hT
  have hr : ∀ t, t < T →
      resolveCtx (mountCtxBinding T) (requestAsyncIdOfThread t) = t := by
    intro t ht
    rw [hb]
    show (List.range T).getD t 0 = t
    simp [List.getD, List.getElem?_range ht]
  exact ⟨hr t1 h1, by rw [hr t1 h1, hr t2 h2]; exact hne⟩

theorem ctx_indexed_by_thread_witness :
    (1 < 2 ∧ 0 < 2 ∧ 1 < 2 ∧ (0 : Nat) ≠ 1) ∧
    (resolveCtx (mountCtxBinding 2) (requestAsyncIdOfThread 0) = 0 ∧
     resolveCtx (mountCtxBinding 2) (requestAsyncIdOfThread 0) ≠
       resolveCtx (mountCtxBinding 2) (requestAsyncIdOfThread 1)) :=
  ⟨by decide, ctx_indexed_by_thread 2 0 1 (by decide) (by decide) (by decide)
    (by decide)⟩

theorem statObj_removeObj (s : Store) (key : String) :
    statObj (removeObj s key) key = none := by
  induction s with
  | nil => rfl
  | cons kv t ih =>
    obtain ⟨k, o⟩ := kv
    by_cases h : k = key
    · simpa [removeObj, List.filter_cons, h] using ih
    · simpa [removeObj, List.filter_cons, h, statObj] using ih

theorem request_tail (urmp : Mountpoint) (req : Request) (s : Store)
    (pools : List String) (now : Int)
    (h1 : ¬(req.path_info.length = 0 ∨ req.path_info.length > PATH_MAX))
    (h2 : ¬(req.asyncEnabled = true ∧ req.pipeFails = true))
    (h3 : req.method ≠ "OPTIONS") (h4 : req.path_info ≠ "/")
    (h5 : req.method ≠ "MKCOL") :
    uwsgi_rados_request urmp req s pools now =
      handleAfterStat urmp req (computeFilename urmp.mountpoint req.path_info)
        s pools now
        (statRetOf req s (computeFilename urmp.mountpoint req.path_info))
        (statObjOf req s (computeFilename urmp.mountpoint req.path_info))
        (if req.asyncEnabled then .openFds else .notCreated)
        [StoreOp.statOp (computeFilename urmp.mountpoint req.path_info)] := by
  unfold uwsgi_rados_request
  rw [if_neg h1, if_neg h2, if_neg h3, if_neg h4, if_neg h5]

theorem statRetOf_of_present (req : Request) (s : Store) (filename : String)
    (hfault : req.statFault = none)
    (hex : (statObj s filename).isSome = true) :
    statRetOf req s filename = 0 := by
  unfold statRetOf
  rw [hfault]
  cases hobj : statObj s filename with
  | none => rw [hobj] at hex; cases hex
  | some o => rfl

theorem statRetOf_of_absent (req : Request) (s : Store) (filename : String)
    (hfault : req.statFault = none)
    (hex : statObj s filename = none) :
    statRetOf req s filename = -ENOENT := by
  unfold statRetOf
  rw [hfault, hex]

theorem bigChunk_length : bigChunk.length = 32768 := by
  rw [bigChunk, List.length_replicate]

theorem put_loop_two_chunks (key : String) (now : Int) (c : Bytes)
    (hc : c.length = 32768) :
    put_loop key now [c, [9]] 32769 [] =
      some ([(key, ⟨[9], now⟩)],
        [StoreOp.writeFullOp key c, StoreOp.writeFullOp key [9]]) := by
  simp only [put_loop, hc, rados_write_full, setObj]
  norm_num

/-- C1: evaluation of the put primitive at a 32769-byte body, delivered as a
full 32 KiB chunk followed by the remaining byte (any chunking of a body
longer than 32 KiB has at least two chunks, since each read asks for at most
32768 bytes).  Each chunk is written with rados_write_full, which has no
offset parameter and replaces the whole object, so the stored object ends up
holding only the final chunk instead of the whole body; the off variable of
the source is computed but never passed to any call. -/
theorem put_large_body_truncated :
    ((uwsgi_rados_put [] "/k" 0 32769 [bigChunk, [9]]).map
        fun r => objData r.1 "/k") = some (some [9]) ∧
    some ([9] : Bytes) ≠ some (bigChunk ++ [9]) := by
  constructor
  · rw [show uwsgi_rados_put [] "/k" 0 32769 [bigChunk, [9]]
          = put_loop "/k" 0 [bigChunk, [9]] 32769 [] from rfl,
        put_loop_two_chunks "/k" 0 bigChunk bigChunk_length]
    rfl
  · intro hcontra
    rw [Option.some_inj] at hcontra
    have hlen := congrArg List.length hcontra
    rw [List.length_append, bigChunk_length] at hlen
    norm_num at hlen

/-- C5: evaluation of an async-enabled GET with If-Modified-Since at or after
the object mtime: the dispatcher answers 304 by returning directly from the
If-Modified-Since branch, skipping the end label, so the successfully created
slot pipe is still open when the handler returns. -/
theorem pipe_leaked_on_304 :
    (uwsgi_rados_request mpAll ⟨"GET", "/r/foo", 0, [], some 200, none,
        true, false, 0⟩ storeHello [] 7).status = 304 ∧
    (uwsgi_rados_request mpAll ⟨"GET", "/r/foo", 0, [], some 200, none,
        true, false, 0⟩ storeHello [] 7).pipe = PipeState.openFds := by
  decide

/-- C3 as stated is false: a PUT on a mount that does not permit PUT is
answered 405, but only after the stat has already been issued against the
I/O context, so the trace of object-store operations is not empty. -/
theorem disallowed_put_still_stats :
    (uwsgi_rados_request mpNone ⟨"PUT", "/r/x", 1, [[7]], none, none,
        false, false, 0⟩ [] [] 7).status = 405 ∧
    (uwsgi_rados_request mpNone ⟨"PUT", "/r/x", 1, [[7]], none, none,
        false, false, 0⟩ [] [] 7).trace ≠ [] := by
  decide

theorem handleAfterStat_ims_none (urmp : Mountpoint) (req : Request)
    (filename : String) (s : Store) (pools : List String) (now : Int)
    (statRet : Int) (obj : Option RadosObject) (pipe0 : PipeState)
    (trace0 : List StoreOp)
    (hput : ¬(req.method = "PUT")) (hlt : ¬ statRet < 0)
    (hdel : ¬(req.method = "DELETE"))
    (hims : req.if_modified_since = none) :
    handleAfterStat urmp req filename s pools now statRet obj pipe0 trace0
      = handleTail urmp req filename s pools obj pipe0 trace0 := by
  unfold handleAfterStat
  rw [if_neg hput, if_neg hlt, if_neg hdel, hims]

/-- C3 amended: a disallowed MKCOL, and a disallowed PROPFIND of the root
path, are gated before any store operation and answered 405 with an empty
trace; a disallowed PUT, DELETE or non-root PROPFIND is gated only after the
stat has been issued, so exactly one stat and no other store operation is
performed, and the answer is 405 whenever control reaches the gate (for PUT
always; for DELETE and PROPFIND when the stat succeeded, PROPFIND stated here
without an If-Modified-Since header, which would otherwise answer 304
first). -/
theorem method_gate_after_stat (urmp : Mountpoint) (req : Request) (s : Store)
    (pools : List String) (now : Int)
    (h1 : ¬(req.path_info.length = 0 ∨ req.path_info.length > PATH_MAX))
    (h2 : ¬(req.asyncEnabled = true ∧ req.pipeFails = true)) :
    (req.method = "MKCOL" → req.path_info ≠ "/" → urmp.allow_mkcol = false →
      (uwsgi_rados_request urmp req s pools now).status = 405 ∧
      (uwsgi_rados_request urmp req s pools now).trace = []) ∧
    (req.path_info = "/" → req.method = "PROPFIND" →
      urmp.allow_propfind = false →
      (uwsgi_rados_request urmp req s pools now).status = 405 ∧
      (uwsgi_rados_request urmp req s pools now).trace = []) ∧
    (req.method = "PUT" → req.path_info ≠ "/" → urmp.allow_put = false →
      (uwsgi_rados_request urmp req s pools now).status = 405 ∧
      (uwsgi_rados_request urmp req s pools now).trace
        = [StoreOp.statOp (computeFilename urmp.mountpoint req.path_info)]) ∧
    (req.method = "DELETE" → req.path_info ≠ "/" → urmp.allow_delete = false →
      (uwsgi_rados_request urmp req s pools now).trace
        = [StoreOp.statOp (computeFilename urmp.mountpoint req.path_info)] ∧
      (statRetOf req s (computeFilename urmp.mountpoint req.path_info) = 0 →
        (uwsgi_rados_request urmp req s pools now).status = 405)) ∧
    (req.method = "PROPFIND" → req.path_info ≠ "/" →
      urmp.allow_propfind = false → req.if_modified_since = none →
      (uwsgi_rados_request urmp req s pools now).trace
        = [StoreOp.statOp (computeFilename urmp.mountpoint req.path_info)] ∧
      (statRetOf req s (computeFilename urmp.mountpoint req.path_info) = 0 →
        (uwsgi_rados_request urmp req s pools now).status = 405)) := by
  refine ⟨?_, ?_, ?_, ?_, ?_⟩
  · intro hm hroot hperm
    unfold uwsgi_rados_request
    rw [if_neg h1, if_neg h2,
        if_neg (show ¬(req.method = "OPTIONS") by rw [hm]; decide),
        if_neg hroot, if_pos hm, if_pos hperm]
    exact ⟨rfl, rfl⟩
  · intro hroot hm hperm
    unfold uwsgi_rados_request
    rw [if_neg h1, if_neg h2,
        if_neg (show ¬(req.method = "OPTIONS") by rw [hm]; decide),
        if_pos hroot,
        if_neg (show ¬(urmp.allow_propfind = true ∧ req.method = "PROPFIND") by
          rw [hperm]; simp)]
    exact ⟨rfl, rfl⟩
  · intro hm hroot hperm
    rw [request_tail urmp req s pools now h1 h2
        (by rw [hm]; decide) hroot (by rw [hm]; decide)]
    unfold handleAfterStat
    rw [if_pos hm, if_pos hperm]
    exact ⟨rfl, rfl⟩
  · intro hm hroot hperm
    rw [request_tail urmp req s pools now h1 h2
        (by rw [hm]; decide) hroot (by rw [hm]; decide)]
    unfold handleAfterStat
    rw [if_neg (show ¬(req.method = "PUT") by rw [hm]; decide)]
    by_cases hlt : statRetOf req s (computeFilename urmp.mountpoint req.path_info) < 0
    · rw [if_pos hlt]
      refine ⟨rfl, ?_⟩
      intro h0
      rw [h0] at hlt
      exact absurd hlt (lt_irrefl 0)
    · rw [if_neg hlt, if_pos hm, if_pos hperm]
      exact ⟨rfl, fun _ => rfl⟩
  · intro hm hroot hperm hims
    rw [request_tail urmp req s pools now h1 h2
        (by rw [hm]; decide) hroot (by rw [hm]; decide)]
    by_cases hlt : statRetOf req s (computeFilename urmp.mountpoint req.path_info) < 0
    · unfold handleAfterStat
      rw [if_neg (show ¬(req.method = "PUT") by rw [hm]; decide), if_pos hlt]
      refine ⟨rfl, ?_⟩
      intro h0
      rw [h0] at hlt
      exact absurd hlt (lt_irrefl 0)
    · rw [handleAfterStat_ims_none urmp req _ s pools now _ _ _ _
          (by rw [hm]; decide) hlt (by rw [hm]; decide) hims]
      unfold handleTail
      rw [if_pos hm, if_pos hperm]
      exact ⟨rfl, fun _ => rfl⟩

theorem method_gate_after_stat_witness :
    (¬(reqPutX.path_info.length = 0 ∨ reqPutX.path_info.length > PATH_MAX) ∧
     ¬(reqPutX.asyncEnabled = true ∧ reqPutX.pipeFails = true)) ∧
    ((reqPutX.method = "MKCOL" → reqPutX.path_info ≠ "/" →
        mpNone.allow_mkcol = false →
      (uwsgi_rados_request mpNone reqPutX [] [] 7).status = 405 ∧
      (uwsgi_rados_request mpNone reqPutX [] [] 7).trace = []) ∧
     (reqPutX.path_info = "/" → reqPutX.method = "PROPFIND" →
        mpNone.allow_propfind = false →
      (uwsgi_rados_request mpNone reqPutX [] [] 7).status = 405 ∧
      (uwsgi_rados_request mpNone reqPutX [] [] 7).trace = []) ∧
     (reqPutX.method = "PUT" → reqPutX.path_info ≠ "/" →
        mpNone.allow_put = false →
      (uwsgi_rados_request mpNone reqPutX [] [] 7).status = 405 ∧
      (uwsgi_rados_request mpNone reqPutX [] [] 7).trace
        = [StoreOp.statOp (computeFilename mpNone.mountpoint reqPutX.path_info)]) ∧
     (reqPutX.method = "DELETE" → reqPutX.path_info ≠ "/" →
        mpNone.allow_delete = false →
      (uwsgi_rados_request mpNone reqPutX [] [] 7).trace
        = [StoreOp.statOp (computeFilename mpNone.mountpoint reqPutX.path_info)] ∧
      (statRetOf reqPutX [] (computeFilename mpNone.mountpoint reqPutX.path_info) = 0 →
        (uwsgi_rados_request mpNone reqPutX [] [] 7).status = 405)) ∧
     (reqPutX.method = "PROPFIND" → reqPutX.path_info ≠ "/" →
        mpNone.allow_propfind = false → reqPutX.if_modified_since = none →
      (uwsgi_rados_request mpNone reqPutX [] [] 7).trace
        = [StoreOp.statOp (computeFilename mpNone.mountpoint reqPutX.path_info)] ∧
      (statRetOf reqPutX [] (computeFilename mpNone.mountpoint reqPutX.path_info) = 0 →
        (uwsgi_rados_request mpNone reqPutX [] [] 7).status = 405))) :=
  ⟨by decide, method_gate_after_stat mpNone reqPutX [] [] 7 (by decide) (by decide)⟩

/-- C8: for a non-PUT (and non-OPTIONS, non-MKCOL, non-root-path) request
whose stat of the key fails with native return e (negative), the dispatcher
answers 404 when e is -ENOENT and 403 for any other stat error. -/
theorem stat_failure_status (urmp : Mountpoint) (req : Request) (s : Store)
    (pools : List String) (now : Int) (e : Int)
    (h1 : ¬(req.path_info.length = 0 ∨ req.path_info.length > PATH_MAX))
    (h2 : ¬(req.asyncEnabled = true ∧ req.pipeFails = true))
    (h3 : req.method ≠ "OPTIONS") (h4 : req.path_info ≠ "/")
    (h5 : req.method ≠ "MKCOL") (h6 : ¬(req.method = "PUT"))
    (he : statRetOf req s (computeFilename urmp.mountpoint req.path_info) = e)
    (hneg : e < 0) :
    (uwsgi_rados_request urmp req s pools now).status
      = if e = -ENOENT then 404 else 403 := by
  rw [request_tail urmp req s pools now h1 h2 h3 h4 h5]
  unfold handleAfterStat
  rw [if_neg h6, he, if_pos hneg]
  rfl

theorem stat_failure_status_witness :
    (¬(reqGetMiss.path_info.length = 0 ∨ reqGetMiss.path_info.length > PATH_MAX) ∧
     ¬(reqGetMiss.asyncEnabled = true ∧ reqGetMiss.pipeFails = true) ∧
     reqGetMiss.method ≠ "OPTIONS" ∧ reqGetMiss.path_info ≠ "/" ∧
     reqGetMiss.method ≠ "MKCOL" ∧ ¬(reqGetMiss.method = "PUT") ∧
     statRetOf reqGetMiss []
       (computeFilename mpAll.mountpoint reqGetMiss.path_info) = -ENOENT ∧
     (-ENOENT : Int) < 0) ∧
    (uwsgi_rados_request mpAll reqGetMiss [] [] 7).status
      = if (-ENOENT : Int) = -ENOENT then 404 else 403 :=
  ⟨by decide, stat_failure_status mpAll reqGetMiss [] [] 7 (-ENOENT)
    (by decide) (by decide) (by decide) (by decide) (by decide) (by decide)
    (by decide) (by decide)⟩

theorem allowString_eq_spec (urmp : Mountpoint) :
    allowString urmp = allowHeaderSpec urmp := by
  obtain ⟨mp, ap, ad, am, apf⟩ := urmp
  cases ap <;> cases ad <;> cases am <;> cases apf <;> rfl

/-- C9: an OPTIONS request on a resolved mount is answered 200 with the Dav
header set and an Allow header equal to OPTIONS, GET, HEAD extended by
exactly the permitted extensions in order PUT, DELETE, MKCOL, PROPFIND, and
no store operation is issued. -/
theorem options_response (urmp : Mountpoint) (req : Request) (s : Store)
    (pools : List String) (now : Int)
    (h1 : ¬(req.path_info.length = 0 ∨ req.path_info.length > PATH_MAX))
    (h2 : ¬(req.asyncEnabled = true ∧ req.pipeFails = true))
    (hm : req.method = "OPTIONS") :
    (uwsgi_rados_request urmp req s pools now).status = 200 ∧
    (uwsgi_rados_request urmp req s pools now).davHeader = true ∧
    (uwsgi_rados_request urmp req s pools now).allowHeader
      = some (allowHeaderSpec urmp) ∧
    (uwsgi_rados_request urmp req s pools now).trace = [] := by
  unfold uwsgi_rados_request
  rw [if_neg h1, if_neg h2, if_pos hm]
  exact ⟨rfl, rfl, by rw [← allowString_eq_spec], rfl⟩

theorem options_response_witness :
    (¬(reqOptions.path_info.length = 0 ∨ reqOptions.path_info.length > PATH_MAX) ∧
     ¬(reqOptions.asyncEnabled = true ∧ reqOptions.pipeFails = true) ∧
     reqOptions.method = "OPTIONS") ∧
    ((uwsgi_rados_request mpOnlyPut reqOptions storeHello [] 7).status = 200 ∧
     (uwsgi_rados_request mpOnlyPut reqOptions storeHello [] 7).davHeader = true ∧
     (uwsgi_rados_request mpOnlyPut reqOptions storeHello [] 7).allowHeader
       = some (allowHeaderSpec mpOnlyPut) ∧
     (uwsgi_rados_request mpOnlyPut reqOptions storeHello [] 7).trace = []) :=
  ⟨by decide, options_response mpOnlyPut reqOptions storeHello [] 7
    (by decide) (by decide) (by decide)⟩

theorem putBranch_empty_body (req : Request) (filename : String) (s : Store)
    (pools : List String) (now : Int) (pipe0 : PipeState)
    (trace0 : List StoreOp) (hcl : req.post_cl = 0) :
    putBranch req filename s pools now 0 pipe0 trace0 =
      outStatus 201 (removeObj s filename) pools
        ((trace0 ++ [StoreOp.removeOp filename]) ++ []) (closePipe pipe0) := by
  unfold putBranch
  rw [hcl]
  simp only [uwsgi_rados_put]
  rw [put_loop_zero]
  rfl

/-- C10: a PUT with Content-Length 0 on a mount permitting PUT, for a key
under which an object exists: the stat succeeds, the old object is deleted,
the put loop body is never entered (no write is issued), and the dispatcher
answers 201; the store afterwards has no object under the key, so a
subsequent GET of the same key is answered 404. -/
theorem put_empty_body_deletes (urmp : Mountpoint) (req req2 : Request)
    (s : Store) (pools : List String) (now : Int)
    (h1 : ¬(req.path_info.length = 0 ∨ req.path_info.length > PATH_MAX))
    (h2 : ¬(req.asyncEnabled = true ∧ req.pipeFails = true))
    (hm : req.method = "PUT") (hroot : req.path_info ≠ "/")
    (hperm : urmp.allow_put = true)
    (hcl : req.post_cl = 0)
    (hfault : req.statFault = none)
    (hex : (statObj s (computeFilename urmp.mountpoint req.path_info)).isSome
      = true)
    (hm2 : req2.method = "GET") (hp2 : req2.path_info = req.path_info)
    (hf2 : req2.statFault = none)
    (h2x : ¬(req2.asyncEnabled = true ∧ req2.pipeFails = true)) :
    (uwsgi_rados_request urmp req s pools now).status = 201 ∧
    (uwsgi_rados_request urmp req s pools now).trace
      = [StoreOp.statOp (computeFilename urmp.mountpoint req.path_info),
         StoreOp.removeOp (computeFilename urmp.mountpoint req.path_info)] ∧
    statObj (uwsgi_rados_request urmp req s pools now).store
      (computeFilename urmp.mountpoint req.path_info) = none ∧
    (uwsgi_rados_request urmp req2
        (uwsgi_rados_request urmp req s pools now).store
        (uwsgi_rados_request urmp req s pools now).pools now).status = 404 := by
  have hstat0 : statRetOf req s (computeFilename urmp.mountpoint req.path_info)
      = 0 := statRetOf_of_present _ _ _ hfault hex
  have hout : uwsgi_rados_request urmp req s pools now
      = outStatus 201
          (removeObj s (computeFilename urmp.mountpoint req.path_info)) pools
          (([StoreOp.statOp (computeFilename urmp.mountpoint req.path_info)]
            ++ [StoreOp.removeOp (computeFilename urmp.mountpoint req.path_info)])
            ++ [])
          (closePipe (if req.asyncEnabled then .openFds else .notCreated)) := by
    rw [request_tail urmp req s pools now h1 h2
        (by rw [hm]; decide) hroot (by rw [hm]; decide)]
    unfold handleAfterStat
    rw [if_pos hm, if_neg (show ¬(urmp.allow_put = false) by rw [hperm]; decide),
        hstat0, putBranch_empty_body req _ s pools now _ _ hcl]
  refine ⟨by rw [hout]; rfl, by rw [hout]; rfl, ?_, ?_⟩
  · rw [hout]
    exact statObj_removeObj s (computeFilename urmp.mountpoint req.path_info)
  · rw [hout]
    show (uwsgi_rados_request urmp req2
        (removeObj s (computeFilename urmp.mountpoint req.path_info))
        pools now).status = 404
    have h1x : ¬(req2.path_info.length = 0 ∨ req2.path_info.length > PATH_MAX) := by
      rw [hp2]; exact h1
    have hroot2 : req2.path_info ≠ "/" := by rw [hp2]; exact hroot
    rw [request_tail urmp req2 _ _ now h1x h2x
        (by rw [hm2]; decide) hroot2 (by rw [hm2]; decide)]
    have hstat2 : statRetOf req2
        (removeObj s (computeFilename urmp.mountpoint req.path_info))
        (computeFilename urmp.mountpoint req2.path_info) = -ENOENT := by
      rw [hp2]
      exact statRetOf_of_absent _ _ _ hf2 (statObj_removeObj s _)
    unfold handleAfterStat
    rw [if_neg (show ¬(req2.method = "PUT") by rw [hm2]; decide), hstat2,
        if_pos (show (-ENOENT : Int) < 0 by decide)]
    rfl

theorem put_empty_body_deletes_witness :
    (¬(reqPutEmpty.path_info.length = 0 ∨ reqPutEmpty.path_info.length > PATH_MAX) ∧
     ¬(reqPutEmpty.asyncEnabled = true ∧ reqPutEmpty.pipeFails = true) ∧
     reqPutEmpty.method = "PUT" ∧ reqPutEmpty.path_info ≠ "/" ∧
     mpAll.allow_put = true ∧ reqPutEmpty.post_cl = 0 ∧
     reqPutEmpty.statFault = none ∧
     (statObj storeHello
       (computeFilename mpAll.mountpoint reqPutEmpty.path_info)).isSome = true ∧
     reqGetFoo.method = "GET" ∧ reqGetFoo.path_info = reqPutEmpty.path_info ∧
     reqGetFoo.statFault = none ∧
     ¬(reqGetFoo.asyncEnabled = true ∧ reqGetFoo.pipeFails = true)) ∧
    ((uwsgi_rados_request mpAll reqPutEmpty storeHello [] 7).status = 201 ∧
     (uwsgi_rados_request mpAll reqPutEmpty storeHello [] 7).trace
       = [StoreOp.statOp (computeFilename mpAll.mountpoint reqPutEmpty.path_info),
          StoreOp.removeOp (computeFilename mpAll.mountpoint reqPutEmpty.path_info)] ∧
     statObj (uwsgi_rados_request mpAll reqPutEmpty storeHello [] 7).store
       (computeFilename mpAll.mountpoint reqPutEmpty.path_info) = none ∧
     (uwsgi_rados_request mpAll reqGetFoo
         (uwsgi_rados_request mpAll reqPutEmpty storeHello [] 7).store
         (uwsgi_rados_request mpAll reqPutEmpty storeHello [] 7).pools 7).status
       = 404) :=
  ⟨by decide, put_empty_body_deletes mpAll reqPutEmpty reqGetFoo storeHello [] 7
    (by decide) (by decide) (by decide) (by decide) (by decide) (by decide)
    (by decide) (by decide) (by decide) (by decide) (by decide) (by decide)⟩

end UwsgiRados
